import Mathlib

/-!
Verification of the pipeline orchestration layer of `llmtune/cli/toolkit.py`.

The orchestrator (`run_one_experiment`) and the sweep driver (`run`) are the
code under verification; the collaborators they call (DatasetGenerator,
LoRAFinetune, LoRAInference, DirectoryHelper, the pydantic `Config` validator
and the `generate_permutations` expander) live outside the CLI module and are
treated as external capabilities with fixed contracts, exactly as the design
document prescribes.  They enter the model as parameters (`Env`, `CLIEnv`);
theorems quantify over them, adding a contract hypothesis where the design
document states one.

The filesystem is modelled at the granularity the orchestrator inspects it:
whether the dataset pickle exists (and, when it does, which splits it holds),
whether the weights directory exists and is non-empty (and its contents), and
whether the results file exists (and its contents).  Every observable action
of a run is recorded in an event trace, so that "collaborator never invoked"
and "stage reports cache-hit" become membership statements about the trace.
-/

namespace LLMTune

/-- One observable action of the orchestrator `run_one_experiment`.
`α` is the type of dataset examples. -/
inductive Event (α : Type) where
  /-- `DatasetGenerator(**config.data.model_dump())` (toolkit.py line 44);
  note the generator object is constructed in both Stage-1 branches. -/
  | constructDatasetGen
  /-- `dataset_generator.get_dataset()` — the generation work (line 51). -/
  | generateDataset
  /-- `dataset_generator.save_dataset(dataset_path)` (line 52). -/
  | saveDataset
  /-- `RichUI.dataset_found(dataset_path)` — Stage-1 cache-hit report (line 54). -/
  | datasetFound
  /-- `dataset_generator.load_dataset_from_pickle(dataset_path)` (line 55). -/
  | loadDataset
  /-- `RichUI.dataset_display_one_example(train[0], test[0])` (line 57). -/
  | displayExample (tr te : α)
  /-- `LoRAFinetune(config, dir_helper)` (line 67). -/
  | constructFinetuner
  /-- `finetuner.finetune(train)` — the fine-tuning work (line 69). -/
  | finetune (train : List α)
  /-- `finetuner.save_model()` (line 70). -/
  | saveWeights
  /-- `RichUI.finetune_found(weights_path)` — Stage-2 cache-hit report (line 73). -/
  | finetuneFound
  /-- `LoRAInference(test, test_columns, config, dir_helper)` (line 80). -/
  | constructInference (test : List α)
  /-- `inference_runner.infer_all()` — the inference work (line 81). -/
  | inferAll
  /-- `RichUI.results_found(results_path)` — Stage-3 cache-hit report (line 84). -/
  | resultsFound
  deriving DecidableEq, Repr

/-- An exception escaping `run_one_experiment`. -/
inductive Err where
  /-- `IndexError` raised by `train[0]` / `test[0]` on an empty split (line 57). -/
  | indexError
  /-- An exception raised by the fine-tuning collaborator (line 69). -/
  | finetuneError
  deriving DecidableEq, Repr

/-- The artifact directory of one experiment, at the granularity the
orchestrator inspects it.  `dataset = some (train, test)` means the dataset
pickle exists and deserialises to those splits; `weights = some l` means the
weights directory exists with entries `l` (`some []` = exists but empty);
`resultsFile = some g` means the results file exists with content `g`. -/
structure FS (α β γ : Type) where
  dataset : Option (List α × List α)
  weights : Option (List β)
  resultsFile : Option γ
  deriving DecidableEq, Repr

/-- The external stage collaborators, already constructed from one concrete
configuration (they are consumed, not implemented, by the CLI module):
`genTrain`/`genTest` is what `get_dataset()` returns, `finetuneRaises`
whether `finetuner.finetune(train)` raises, `trainedWeights` the directory
entries `save_model()` persists, `inferOut` the results-file content
`infer_all()` writes for a given test split. -/
structure Env (α β γ : Type) where
  genTrain : List α
  genTest : List α
  finetuneRaises : List α → Bool
  trainedWeights : List β
  inferOut : List α → γ

/-- The outcome of one orchestrator run: the exception (if one escaped), the
artifact directory afterwards, and the trace of observable actions. -/
structure RunOut (α β γ : Type) where
  result : Option Err
  fs : FS α β γ
  trace : List (Event α)
  deriving DecidableEq, Repr

/-- Stage 1 of `run_one_experiment` (toolkit.py lines 41–55): construct the
dataset generator, then either generate-and-save (dataset pickle absent) or
report-and-load (present).  Returns the directory afterwards, the events so
far, and the train/test splits now in memory. -/
def stage1 {α β γ : Type} (env : Env α β γ) (s : FS α β γ) :
    FS α β γ × List (Event α) × List α × List α :=
  match s.dataset with
  | none =>
      ({ s with dataset := some (env.genTrain, env.genTest) },
       [Event.constructDatasetGen, Event.generateDataset, Event.saveDataset],
       env.genTrain, env.genTest)
  | some (train, test) =>
      (s, [Event.constructDatasetGen, Event.datasetFound, Event.loadDataset],
       train, test)

/-- The Stage-2 guard `not weights_path.exists() or not any(weights_path.iterdir())`
negated (toolkit.py line 66): the weights artifact is present iff the
directory exists and is non-empty. -/
def weightsPresent {β : Type} : Option (List β) → Bool
  | none => false
  | some l => !l.isEmpty

/-- Stage 3 of `run_one_experiment` (toolkit.py lines 76–84): if the results
file exists, report cache-hit; else construct the inference runner on the
test split and run it, writing the results file. -/
def stage3 {α β γ : Type} (env : Env α β γ) (s : FS α β γ)
    (tr : List (Event α)) (test : List α) : RunOut α β γ :=
  match s.resultsFile with
  | some _ => ⟨none, s, tr ++ [Event.resultsFound]⟩
  | none =>
      ⟨none, { s with resultsFile := some (env.inferOut test) },
       tr ++ [Event.constructInference test, Event.inferAll]⟩

/-- The continuation of `run_one_experiment` after Stage 1, on the directory
`s1`, events `tr1` and splits that Stage 1 produced: the one-example display
(toolkit.py line 57) accesses `train[0]` and `test[0]` unconditionally,
raising on an empty split; Stage 2 (lines 63–73) fine-tunes unless the
weights directory exists non-empty, a raise from the collaborator
propagating immediately; then Stage 3. -/
def afterStage1 {α β γ : Type} (env : Env α β γ) (s1 : FS α β γ)
    (tr1 : List (Event α)) : List α → List α → RunOut α β γ
  | [], _ => ⟨some Err.indexError, s1, tr1⟩
  | _ :: _, [] => ⟨some Err.indexError, s1, tr1⟩
  | a :: ta, b :: tb =>
    let tr2 := tr1 ++ [Event.displayExample a b]
    if weightsPresent s1.weights then
      stage3 env s1 (tr2 ++ [Event.finetuneFound]) (b :: tb)
    else
      let trc := tr2 ++ [Event.constructFinetuner]
      if env.finetuneRaises (a :: ta) then
        ⟨some Err.finetuneError, s1, trc⟩
      else
        stage3 env { s1 with weights := some env.trainedWeights }
          (trc ++ [Event.finetune (a :: ta), Event.saveWeights]) (b :: tb)

/-- Shallow embedding of `run_one_experiment` (toolkit.py lines 37–94) for one
concrete configuration, the collaborators it constructs abstracted into
`env`: Stage 1 followed by the display, Stage 2 and Stage 3 on its output. -/
def run_one_experiment {α β γ : Type} (env : Env α β γ) (s : FS α β γ) :
    RunOut α β γ :=
  afterStage1 env (stage1 env s).1 (stage1 env s).2.1
    (stage1 env s).2.2.1 (stage1 env s).2.2.2

/-- The `ablation` section of a raw (untyped) configuration mapping, as far as
the CLI inspects it: `config.get("ablation", {}).get("use_ablate", False)`
(toolkit.py line 104).  `use_ablate = none` models an absent key. -/
structure AblationRaw where
  use_ablate : Option Bool
  deriving DecidableEq, Repr

/-- A raw configuration mapping as loaded by `yaml.safe_load`: the `ablation`
sub-mapping the CLI inspects (`none` models an absent key) plus an opaque
payload `ρ` for everything else. -/
structure RawConfig (ρ : Type) where
  ablation : Option AblationRaw
  payload : ρ
  deriving DecidableEq, Repr

/-- The guard `config.get("ablation", {}).get("use_ablate", False)`
(toolkit.py line 104). -/
def useAblate {ρ : Type} (c : RawConfig ρ) : Bool :=
  match c.ablation with
  | none => false
  | some a => a.use_ablate.getD false

/-- The expansion on line 103–105 of toolkit.py:
`generate_permutations(config, Config) if config.get("ablation", {}).get("use_ablate", False) else [config]`.
`gp` is the external `generate_permutations` from `llmtune.utils.ablation_utils`. -/
def expandConfigs {ρ : Type} (gp : RawConfig ρ → List (RawConfig ρ))
    (c : RawConfig ρ) : List (RawConfig ρ) :=
  if useAblate c then gp c else [c]

/-- The external capabilities the `run` command consumes, for one source
config path.  `generate_permutations` is the ablation expander;
`validate` is pydantic `Config(**raw)` (a structured error models a raised
`ValidationError`); `dump` is, per the design document, the round trip
"DirectoryHelper persists the configuration to `config_file`; `yaml.safe_load`
re-reads it as a raw mapping" — Modelled from the spec: DirectoryHelper's
persistence side effect ("writes the configuration itself to `config_file` in
a serialized form") is not part of the CLI module; `stageEnv` gives the stage
collaborators constructed from a validated configuration. -/
structure CLIEnv (ρ τ α β γ : Type) where
  generate_permutations : RawConfig ρ → List (RawConfig ρ)
  validate : RawConfig ρ → Except String τ
  dump : τ → RawConfig ρ
  stageEnv : τ → Env α β γ

/-- An exception escaping the `run` command. -/
inductive RunErr where
  /-- An uncaught pydantic `ValidationError` (the reload-time validation on
  toolkit.py line 118 is not wrapped in a handler). -/
  | validation (msg : String)
  /-- An exception escaping `run_one_experiment`. -/
  | stage (e : Err)
  deriving DecidableEq, Repr

/-- One observable action of the `run` command's sweep loop. -/
inductive RunEvent (ρ τ α : Type) where
  /-- `print(e.json())` in the `except ValidationError` handler (line 111). -/
  | validationFailurePrinted (msg : String)
  /-- `DirectoryHelper(config_path, config)` (line 113): path resolution,
  which persists the in-memory configuration — raw (`Sum.inl`) when the
  first validation failed, typed (`Sum.inr`) when it succeeded. -/
  | resolvePaths (v : RawConfig ρ ⊕ τ)
  /-- `Config(**yaml.safe_load(config_file))` succeeded on the reloaded
  persisted configuration (lines 116–118). -/
  | reloadOk (t : τ)
  /-- `run_one_experiment(config, config_path)` invoked with configuration
  `t` (line 120). -/
  | invokeOrchestrator (t : τ)
  /-- An action of the orchestrator during that invocation. -/
  | stage (e : Event α)
  deriving DecidableEq, Repr

/-- The outcome of (part of) the sweep loop: the exception that escaped (if
any), the artifact directories afterwards (one per concrete configuration,
as DirectoryHelper derives an isolated directory per configuration), and the
trace of observable actions. -/
structure SweepOut (ρ τ α β γ : Type) where
  err : Option RunErr
  disk : τ → FS α β γ
  trace : List (RunEvent ρ τ α)

/-- The in-memory configuration after the guarded first validation of a sweep
item (toolkit.py lines 108–111): the typed result on success; on failure the
`except ValidationError` handler only prints, so the name `config` still
holds the raw mapping. -/
def firstValidation {ρ τ α β γ : Type} (env : CLIEnv ρ τ α β γ)
    (r : RawConfig ρ) : (RawConfig ρ ⊕ τ) × List (RunEvent ρ τ α) :=
  match env.validate r with
  | Except.ok t => (Sum.inr t, [])
  | Except.error e => (Sum.inl r, [RunEvent.validationFailurePrinted e])

/-- The raw mapping read back from the persisted `config_file` of a sweep
item (toolkit.py lines 116–117): the serialised form of whatever in-memory
object `DirectoryHelper` persisted.  Modelled from the spec: the persisted
form "must be round-trippable — writing then reading must reproduce an
equivalent" configuration, so persisting a raw mapping re-reads as that
mapping and persisting a typed configuration re-reads as its dump. -/
def persistedRaw {ρ τ α β γ : Type} (env : CLIEnv ρ τ α β γ) :
    RawConfig ρ ⊕ τ → RawConfig ρ
  | Sum.inl raw => raw
  | Sum.inr t => env.dump t

/-- One iteration of the sweep loop (toolkit.py lines 106–120): guarded first
validation, path resolution (persisting the in-memory configuration),
unguarded re-validation of the reloaded persisted configuration, then the
orchestrator on the reloaded configuration.  Exceptions from the reload
validation or the orchestrator escape. -/
def processItem {ρ τ α β γ : Type} [DecidableEq τ] (env : CLIEnv ρ τ α β γ)
    (disk : τ → FS α β γ) (r : RawConfig ρ) : SweepOut ρ τ α β γ :=
  match firstValidation env r with
  | (cfg, tr0) =>
    let tr1 := tr0 ++ [RunEvent.resolvePaths cfg]
    match env.validate (persistedRaw env cfg) with
    | Except.error e => ⟨some (RunErr.validation e), disk, tr1⟩
    | Except.ok t =>
        let out := run_one_experiment (env.stageEnv t) (disk t)
        ⟨out.result.map RunErr.stage,
         fun u => if u = t then out.fs else disk u,
         tr1 ++ [RunEvent.reloadOk t, RunEvent.invokeOrchestrator t]
             ++ out.trace.map RunEvent.stage⟩

/-- Sequencing of the sweep loop: if the completed iteration raised, the
exception aborts the loop; otherwise the remaining iterations run against
the store it left and the traces concatenate. -/
def SweepOut.andThen {ρ τ α β γ : Type} (out : SweepOut ρ τ α β γ)
    (k : (τ → FS α β γ) → SweepOut ρ τ α β γ) : SweepOut ρ τ α β γ :=
  match out.err with
  | some e => ⟨some e, out.disk, out.trace⟩
  | none => ⟨(k out.disk).err, (k out.disk).disk,
             out.trace ++ (k out.disk).trace⟩

/-- The sweep loop `for config in configs:` (toolkit.py lines 106–120),
sequential; an exception escaping one iteration aborts the remaining ones. -/
def runItems {ρ τ α β γ : Type} [DecidableEq τ] (env : CLIEnv ρ τ α β γ)
    (disk : τ → FS α β γ) : List (RawConfig ρ) → SweepOut ρ τ α β γ
  | [] => ⟨none, disk, []⟩
  | c :: rest =>
      (processItem env disk c).andThen (fun d => runItems env d rest)

/-- The `run` command (toolkit.py lines 97–120): expand the raw configuration
(identity unless the ablation flag is set) and run the sweep loop. -/
def runCommand {ρ τ α β γ : Type} [DecidableEq τ] (env : CLIEnv ρ τ α β γ)
    (disk : τ → FS α β γ) (raw : RawConfig ρ) : SweepOut ρ τ α β γ :=
  runItems env disk (expandConfigs env.generate_permutations raw)

/-- The process exit status of the `run` command: zero when the sweep loop
returns normally, non-zero when an exception escapes it (an uncaught Python
exception terminates the process with a non-zero status). -/
def exitCode {ρ τ α β γ : Type} (out : SweepOut ρ τ α β γ) : Nat :=
  match out.err with
  | none => 0
  | some _ => 1

/-- Stage collaborators whose fine-tuner succeeds, used as a concrete input. -/
def envOk : Env Nat Nat Nat :=
  ⟨[1], [3], fun _ => false, [7], fun l => l.length⟩

/-- Stage collaborators whose fine-tuner raises, used as a concrete input. -/
def envRaise : Env Nat Nat Nat :=
  ⟨[1], [3], fun _ => true, [7], fun l => l.length⟩

/-- An empty artifact directory, used as a concrete input. -/
def fsEmpty : FS Nat Nat Nat := ⟨none, none, none⟩

/-- An artifact directory holding only the dataset pickle, used as a
concrete input. -/
def fsDatasetOnly : FS Nat Nat Nat :=
  ⟨some ([1], [3]), none, none⟩

/-- A fully populated artifact directory, used as a concrete input. -/
def fsFull : FS Nat Nat Nat :=
  ⟨some ([1], [3]), some [7], some 0⟩

/-- An initially empty experiment store, used as a concrete input. -/
def diskW : Nat → FS Nat Nat Nat := fun _ => fsEmpty

/-- A sweep driver environment whose validator rejects payload `0`, used as a
concrete input. -/
def cliEnvW : CLIEnv Nat Nat Nat Nat Nat :=
  ⟨fun c => [c, c],
   fun r => if r.payload = 0 then Except.error "bad" else Except.ok r.payload,
   fun t => ⟨none, t⟩,
   fun _ => envOk⟩

/-- A sweep driver environment whose persist/reload round trip shifts the
configuration, used as a concrete input to separate the in-memory object
from the reloaded one. -/
def cliEnvShift : CLIEnv Nat Nat Nat Nat Nat :=
  ⟨fun c => [c, c],
   fun r => Except.ok r.payload,
   fun t => ⟨none, t + 1⟩,
   fun _ => envOk⟩

/-- A sweep driver environment whose persisted form always reloads as the
rejected payload `0`, used as a concrete input making reload validation
fail. -/
def cliEnvBadDump : CLIEnv Nat Nat Nat Nat Nat :=
  ⟨fun c => [c, c],
   fun r => if r.payload = 0 then Except.error "bad" else Except.ok r.payload,
   fun _ => ⟨none, 0⟩,
   fun _ => envOk⟩

/-- A sweep driver environment whose validator accepts everything but whose
fine-tuning collaborator raises, used as a concrete input. -/
def cliEnvStageFail : CLIEnv Nat Nat Nat Nat Nat :=
  ⟨fun c => [c, c],
   fun r => Except.ok r.payload,
   fun t => ⟨none, t⟩,
   fun _ => envRaise⟩

/-- C4: for every raw configuration in which the ablation-enable flag is
absent (no `ablation` section, or a section without `use_ablate`) or false,
the expansion on toolkit.py line 103–105 returns the single-element list
containing exactly the input configuration unchanged, whatever the external
`generate_permutations` would do. -/
theorem ablation_disabled_expansion_identity {ρ : Type}
    (gp : RawConfig ρ → List (RawConfig ρ)) (c : RawConfig ρ)
    (h : c.ablation = none ∨
      ∃ a, c.ablation = some a ∧
        (a.use_ablate = none ∨ a.use_ablate = some false)) :
    expandConfigs gp c = [c] := by
  rcases h with h | ⟨a, ha, h⟩
  · simp [expandConfigs, useAblate, h]
  · rcases h with h | h <;> simp [expandConfigs, useAblate, ha, h]

/-- Witness for C4 at a concrete configuration with the flag absent. -/
theorem ablation_disabled_expansion_identity_witness :
    expandConfigs (fun c => [c, c]) (RawConfig.mk none 0) =
      [RawConfig.mk (ρ := Nat) none 0] :=
  ablation_disabled_expansion_identity (fun c => [c, c])
    (RawConfig.mk none 0) (Or.inl rfl)

/-- C9: the one-example display on toolkit.py line 57 accesses `train[0]` and
`test[0]` unconditionally in both Stage-1 branches, so `run_one_experiment`
raises an `IndexError` whenever either split is empty — in particular with a
pre-existing dataset artifact holding an empty split (state `s`, whatever
weights and results artifacts exist), and likewise in the generation branch
(state `sg`) when the generator returns an empty split. -/
theorem empty_split_raises_in_both_branches {α β γ : Type} (env : Env α β γ)
    (s sg : FS α β γ) (tr te : List α)
    (hds : s.dataset = some (tr, te)) (h : tr = [] ∨ te = [])
    (hg : sg.dataset = none) (hgen : env.genTrain = [] ∨ env.genTest = []) :
    (run_one_experiment env s).result = some Err.indexError ∧
    (run_one_experiment env sg).result = some Err.indexError := by
  constructor
  · rcases h with h | h
    · subst h
      simp [run_one_experiment, afterStage1, stage1, hds]
    · subst h
      cases tr with
      | nil => simp [run_one_experiment, afterStage1, stage1, hds]
      | cons a ta => simp [run_one_experiment, afterStage1, stage1, hds]
  · rcases hgen with h | h
    · simp [run_one_experiment, afterStage1, stage1, hg, h]
    · cases hgt : env.genTrain with
      | nil => simp [run_one_experiment, afterStage1, stage1, hg, hgt]
      | cons a ta => simp [run_one_experiment, afterStage1, stage1, hg, hgt, h]

/-- Witness for C9: a run over a fully populated artifact directory whose
dataset pickle holds an empty test split still raises. -/
theorem empty_split_raises_in_both_branches_witness :
    (run_one_experiment (Env.mk (γ := Nat) [1] ([] : List Nat)
        (fun _ => false) [7] (fun l => l.length))
      (FS.mk (some ([1], [])) (some [7]) (some 0))).result =
        some Err.indexError ∧
    (run_one_experiment (Env.mk (γ := Nat) [1] ([] : List Nat)
        (fun _ => false) [7] (fun l => l.length))
      (FS.mk none (some [7]) (some 0))).result = some Err.indexError :=
  empty_split_raises_in_both_branches _ _ _ [1] []
    rfl (Or.inr rfl) rfl (Or.inr rfl)

/-- C7: whichever Stage-1 branch was taken, if Stage 2 actually runs (the
weights artifact is absent or empty) and the fine-tuning collaborator raises,
the exception escapes `run_one_experiment` at once: the inference collaborator
is never constructed or run, and the results artifact is untouched. -/
theorem finetune_raise_skips_inference {α β γ : Type} (env : Env α β γ)
    (s : FS α β γ) (a b : α) (ta tb : List α)
    (h1 : (stage1 env s).2.2 = (a :: ta, b :: tb))
    (hw : weightsPresent (stage1 env s).1.weights = false)
    (hraise : env.finetuneRaises (a :: ta) = true) :
    (run_one_experiment env s).result = some Err.finetuneError ∧
    (∀ l, Event.constructInference l ∉ (run_one_experiment env s).trace) ∧
    Event.inferAll ∉ (run_one_experiment env s).trace ∧
    (run_one_experiment env s).fs.resultsFile = s.resultsFile := by
  cases hd : s.dataset with
  | none =>
      simp only [stage1, hd] at h1 hw
      rw [Prod.mk.injEq] at h1
      obtain ⟨h1a, h1b⟩ := h1
      simp [run_one_experiment, afterStage1, stage1, hd, h1a, h1b, hw, hraise]
  | some p =>
      obtain ⟨train, test⟩ := p
      simp only [stage1, hd] at h1 hw
      rw [Prod.mk.injEq] at h1
      obtain ⟨h1a, h1b⟩ := h1
      simp [run_one_experiment, afterStage1, stage1, hd, h1a, h1b, hw, hraise]

/-- Witness for C7: absent weights, present dataset, raising fine-tuner. -/
theorem finetune_raise_skips_inference_witness :
    (run_one_experiment envRaise fsDatasetOnly).result =
      some Err.finetuneError ∧
    Event.inferAll ∉ (run_one_experiment envRaise fsDatasetOnly).trace :=
  ⟨(finetune_raise_skips_inference envRaise fsDatasetOnly 1 3 [] []
      rfl rfl rfl).1,
   (finetune_raise_skips_inference envRaise fsDatasetOnly 1 3 [] []
      rfl rfl rfl).2.2.1⟩

/-- C3: with the Stage-1 splits in memory (dataset artifact present with
non-empty splits), Stage 2 is skipped iff the weights directory exists and is
non-empty (first conjunct: skip — the cache-hit is reported, the fine-tuner
is never constructed or run, the weights artifact is untouched); otherwise
(second conjunct) the fine-tuner is constructed, no cache-hit is reported,
and — when the collaborator does not raise — it is run against exactly the
Stage-1 train split and the resulting weights are persisted. -/
theorem stage2_skip_iff_weights_present {α β γ : Type} (env : Env α β γ)
    (s : FS α β γ) (a b : α) (ta tb : List α)
    (hds : s.dataset = some (a :: ta, b :: tb)) :
    (∀ w, s.weights = some w → w ≠ [] →
      Event.finetuneFound ∈ (run_one_experiment env s).trace ∧
      Event.constructFinetuner ∉ (run_one_experiment env s).trace ∧
      (∀ l, Event.finetune l ∉ (run_one_experiment env s).trace) ∧
      (run_one_experiment env s).fs.weights = s.weights) ∧
    (s.weights = none ∨ s.weights = some [] →
      Event.constructFinetuner ∈ (run_one_experiment env s).trace ∧
      Event.finetuneFound ∉ (run_one_experiment env s).trace ∧
      (env.finetuneRaises (a :: ta) = false →
        Event.finetune (a :: ta) ∈ (run_one_experiment env s).trace ∧
        Event.saveWeights ∈ (run_one_experiment env s).trace ∧
        (run_one_experiment env s).fs.weights = some env.trainedWeights)) := by
  constructor
  · intro w hw hwne
    cases w with
    | nil => exact absurd rfl hwne
    | cons x xs =>
        cases hr : s.resultsFile with
        | none =>
            simp [run_one_experiment, afterStage1, stage1, hds, weightsPresent, hw,
              stage3, hr]
        | some g =>
            simp [run_one_experiment, afterStage1, stage1, hds, weightsPresent, hw,
              stage3, hr]
  · intro hw
    have hwp : weightsPresent s.weights = false := by
      rcases hw with hw | hw <;> simp [weightsPresent, hw]
    cases hft : env.finetuneRaises (a :: ta) with
    | true =>
        refine ⟨?_, ?_, ?_⟩
        · simp [run_one_experiment, afterStage1, stage1, hds, hwp, hft]
        · simp [run_one_experiment, afterStage1, stage1, hds, hwp, hft]
        · intro hff
          simp [hft] at hff
    | false =>
        cases hr : s.resultsFile with
        | none =>
            simp [run_one_experiment, afterStage1, stage1, hds, hwp, hft, stage3, hr]
        | some g =>
            simp [run_one_experiment, afterStage1, stage1, hds, hwp, hft, stage3, hr]

/-- Witness for C3: the skip conjunct on a populated weights directory and
the run conjunct on an absent one. -/
theorem stage2_skip_iff_weights_present_witness :
    Event.finetuneFound ∈ (run_one_experiment envOk fsFull).trace ∧
    Event.constructFinetuner ∉ (run_one_experiment envOk fsFull).trace ∧
    Event.constructFinetuner ∈
      (run_one_experiment envOk fsDatasetOnly).trace ∧
    Event.finetune [1] ∈ (run_one_experiment envOk fsDatasetOnly).trace ∧
    (run_one_experiment envOk fsDatasetOnly).fs.weights = some [7] :=
  ⟨((stage2_skip_iff_weights_present envOk fsFull 1 3 [] [] rfl).1
      [7] rfl (by decide)).1,
   ((stage2_skip_iff_weights_present envOk fsFull 1 3 [] [] rfl).1
      [7] rfl (by decide)).2.1,
   ((stage2_skip_iff_weights_present envOk fsDatasetOnly 1 3 [] [] rfl).2
      (Or.inl rfl)).1,
   (((stage2_skip_iff_weights_present envOk fsDatasetOnly 1 3 [] [] rfl).2
      (Or.inl rfl)).2.2 rfl).1,
   (((stage2_skip_iff_weights_present envOk fsDatasetOnly 1 3 [] [] rfl).2
      (Or.inl rfl)).2.2 rfl).2.2⟩

/-- C2: Stage 1 of `run_one_experiment`.  First group (state `s`, dataset
artifact present, weights and results absent, non-raising fine-tuner): the
splits are loaded, generation work is never invoked, one example from each
split is displayed, and fine-tuning and inference are both invoked.  Second
group (state `sg`, dataset artifact absent): the splits are generated and
persisted to the dataset path, no load happens, and one example from each
generated split is displayed — whatever the weights/results artifacts. -/
theorem stage1_load_or_generate {α β γ : Type} (env : Env α β γ)
    (s sg : FS α β γ) (a b a2 b2 : α) (ta tb ta2 tb2 : List α)
    (hds : s.dataset = some (a :: ta, b :: tb))
    (hw : s.weights = none) (hr : s.resultsFile = none)
    (hft : env.finetuneRaises (a :: ta) = false)
    (hg : sg.dataset = none)
    (hga : env.genTrain = a2 :: ta2) (hgb : env.genTest = b2 :: tb2) :
    (Event.loadDataset ∈ (run_one_experiment env s).trace ∧
     Event.generateDataset ∉ (run_one_experiment env s).trace ∧
     Event.displayExample a b ∈ (run_one_experiment env s).trace ∧
     Event.finetune (a :: ta) ∈ (run_one_experiment env s).trace ∧
     Event.inferAll ∈ (run_one_experiment env s).trace) ∧
    (Event.generateDataset ∈ (run_one_experiment env sg).trace ∧
     Event.saveDataset ∈ (run_one_experiment env sg).trace ∧
     Event.loadDataset ∉ (run_one_experiment env sg).trace ∧
     (run_one_experiment env sg).fs.dataset =
       some (env.genTrain, env.genTest) ∧
     Event.displayExample a2 b2 ∈ (run_one_experiment env sg).trace) := by
  constructor
  · simp [run_one_experiment, afterStage1, stage1, hds, weightsPresent, hw, hft,
      stage3, hr]
  · cases hwp : weightsPresent sg.weights with
    | true =>
        cases hrg : sg.resultsFile with
        | none =>
            simp [run_one_experiment, afterStage1, stage1, hg, hga, hgb, hwp, stage3, hrg]
        | some g =>
            simp [run_one_experiment, afterStage1, stage1, hg, hga, hgb, hwp, stage3, hrg]
    | false =>
        cases hft2 : env.finetuneRaises (a2 :: ta2) with
        | true =>
            simp [run_one_experiment, afterStage1, stage1, hg, hga, hgb, hwp, hft2]
        | false =>
            cases hrg : sg.resultsFile with
            | none =>
                simp [run_one_experiment, afterStage1, stage1, hg, hga, hgb, hwp, hft2,
                  stage3, hrg]
            | some g =>
                simp [run_one_experiment, afterStage1, stage1, hg, hga, hgb, hwp, hft2,
                  stage3, hrg]

/-- Witness for C2: a pre-populated dataset with absent weights/results
loads without generating and still fine-tunes and infers; an empty directory
generates and persists. -/
theorem stage1_load_or_generate_witness :
    (Event.loadDataset ∈ (run_one_experiment envOk fsDatasetOnly).trace ∧
     Event.generateDataset ∉
       (run_one_experiment envOk fsDatasetOnly).trace ∧
     Event.displayExample 1 3 ∈
       (run_one_experiment envOk fsDatasetOnly).trace ∧
     Event.finetune [1] ∈ (run_one_experiment envOk fsDatasetOnly).trace ∧
     Event.inferAll ∈ (run_one_experiment envOk fsDatasetOnly).trace) ∧
    (Event.generateDataset ∈ (run_one_experiment envOk fsEmpty).trace ∧
     Event.saveDataset ∈ (run_one_experiment envOk fsEmpty).trace ∧
     Event.loadDataset ∉ (run_one_experiment envOk fsEmpty).trace ∧
     (run_one_experiment envOk fsEmpty).fs.dataset = some ([1], [3]) ∧
     Event.displayExample 1 3 ∈ (run_one_experiment envOk fsEmpty).trace) :=
  stage1_load_or_generate envOk fsDatasetOnly fsEmpty 1 3 1 3 [] [] [] []
    rfl rfl rfl rfl rfl rfl rfl

/-- Stage 1 always leaves the dataset artifact holding exactly the splits it
returns: it either wrote the generated splits or read the stored ones. -/
theorem stage1_dataset {α β γ : Type} (env : Env α β γ) (s : FS α β γ) :
    (stage1 env s).1.dataset =
      some ((stage1 env s).2.2.1, (stage1 env s).2.2.2) := by
  cases hd : s.dataset with
  | none => simp [stage1, hd]
  | some p => obtain ⟨tr, te⟩ := p; simp [stage1, hd]

/-- Stage 1 never touches the weights artifact. -/
theorem stage1_weights {α β γ : Type} (env : Env α β γ) (s : FS α β γ) :
    (stage1 env s).1.weights = s.weights := by
  cases hd : s.dataset with
  | none => simp [stage1, hd]
  | some p => obtain ⟨tr, te⟩ := p; simp [stage1, hd]

/-- Stage 1 never touches the results artifact. -/
theorem stage1_results {α β γ : Type} (env : Env α β γ) (s : FS α β γ) :
    (stage1 env s).1.resultsFile = s.resultsFile := by
  cases hd : s.dataset with
  | none => simp [stage1, hd]
  | some p => obtain ⟨tr, te⟩ := p; simp [stage1, hd]

/-- On a complete artifact directory — dataset pickle with non-empty splits,
non-empty weights directory, results file — a run is exactly the all-cache-hit
run: it reports three cache-hits, performs no work, and leaves the directory
untouched. -/
theorem cache_hit_run {α β γ : Type} (env : Env α β γ) (s : FS α β γ)
    (a b : α) (ta tb : List α) (w : List β) (g : γ)
    (hds : s.dataset = some (a :: ta, b :: tb))
    (hw : s.weights = some w) (hwne : w ≠ [])
    (hrf : s.resultsFile = some g) :
    run_one_experiment env s =
      ⟨none, s,
       [Event.constructDatasetGen, Event.datasetFound, Event.loadDataset,
        Event.displayExample a b, Event.finetuneFound,
        Event.resultsFound]⟩ := by
  cases w with
  | nil => exact absurd rfl hwne
  | cons x xs =>
      simp [run_one_experiment, afterStage1, stage1, hds, weightsPresent,
        hw, stage3, hrf]

/-- A run that returns normally leaves a complete artifact directory behind:
a dataset pickle with non-empty splits, a weights directory that exists and —
granted the collaborator contract that persisted adapter weights are a
non-empty directory — is non-empty, and a results file. -/
theorem run_ok_complete {α β γ : Type} (env : Env α β γ) (s : FS α β γ)
    (hok : (run_one_experiment env s).result = none)
    (hwne : env.trainedWeights ≠ []) :
    ∃ a ta b tb w g,
      (run_one_experiment env s).fs =
        FS.mk (some (a :: ta, b :: tb)) (some w) (some g) ∧ w ≠ [] := by
  have hds := stage1_dataset env s
  have hwq := stage1_weights env s
  have hrq := stage1_results env s
  rcases hst : stage1 env s with ⟨s1, tr1, train, test⟩
  rw [hst] at hds hwq hrq
  simp only at hds hwq hrq
  have hrun : run_one_experiment env s = afterStage1 env s1 tr1 train test := by
    simp [run_one_experiment, hst]
  rw [hrun] at hok ⊢
  obtain ⟨d1, w1, r1⟩ := s1
  simp only at hds hwq hrq
  cases train with
  | nil => simp [afterStage1] at hok
  | cons a ta =>
    cases test with
    | nil => simp [afterStage1] at hok
    | cons b tb =>
      cases hwp : weightsPresent w1 with
      | true =>
          cases hw1 : w1 with
          | none => rw [hw1] at hwp; simp [weightsPresent] at hwp
          | some l =>
            cases l with
            | nil => rw [hw1] at hwp; simp [weightsPresent] at hwp
            | cons x xs =>
                cases hrf : r1 with
                | none =>
                    exact ⟨a, ta, b, tb, x :: xs, env.inferOut (b :: tb),
                      by subst hw1 hrf
                         simp [afterStage1, hwp, stage3, hds],
                      by simp⟩
                | some g =>
                    exact ⟨a, ta, b, tb, x :: xs, g,
                      by subst hw1 hrf
                         simp [afterStage1, hwp, stage3, hds],
                      by simp⟩
      | false =>
          cases hft : env.finetuneRaises (a :: ta) with
          | true => simp [afterStage1, hwp, hft] at hok
          | false =>
              cases hrf : r1 with
              | none =>
                  exact ⟨a, ta, b, tb, env.trainedWeights,
                    env.inferOut (b :: tb),
                    by subst hrf
                       simp [afterStage1, hwp, hft, stage3, hds],
                    hwne⟩
              | some g =>
                  exact ⟨a, ta, b, tb, env.trainedWeights, g,
                    by subst hrf
                       simp [afterStage1, hwp, hft, stage3, hds],
                    hwne⟩

/-- C1: idempotence of `run_one_experiment`.  If a run with collaborators
`env` returns normally — and the fine-tuning collaborator honours its
contract of persisting a non-empty weights directory — then a second run
with the same configuration over the directory the first run left behind
takes the cache-hit branch of all three stages (its whole trace is the three
cache-hit reports, the load and the display: no generation, no fine-tuning,
no inference work) and leaves every artifact exactly as the first run left
it. -/
theorem second_run_all_cache_hits {α β γ : Type} (env : Env α β γ)
    (s : FS α β γ)
    (hok : (run_one_experiment env s).result = none)
    (hwne : env.trainedWeights ≠ []) :
    ∃ a b,
      run_one_experiment env (run_one_experiment env s).fs =
        ⟨none, (run_one_experiment env s).fs,
         [Event.constructDatasetGen, Event.datasetFound, Event.loadDataset,
          Event.displayExample a b, Event.finetuneFound,
          Event.resultsFound]⟩ := by
  obtain ⟨a, ta, b, tb, w, g, hfs, hw⟩ := run_ok_complete env s hok hwne
  refine ⟨a, b, ?_⟩
  rw [hfs]
  exact cache_hit_run env _ a b ta tb w g rfl rfl hw rfl

/-- Witness for C1: a first run from an empty directory, then a second run
over what it produced. -/
theorem second_run_all_cache_hits_witness :
    run_one_experiment envOk (run_one_experiment envOk fsEmpty).fs =
      ⟨none, (run_one_experiment envOk fsEmpty).fs,
       [Event.constructDatasetGen, Event.datasetFound, Event.loadDataset,
        Event.displayExample 1 3, Event.finetuneFound,
        Event.resultsFound]⟩ := by
  obtain ⟨a, b, h⟩ := second_run_all_cache_hits envOk fsEmpty rfl (by decide)
  have hc : (run_one_experiment envOk (run_one_experiment envOk fsEmpty).fs).trace =
      [Event.constructDatasetGen, Event.datasetFound, Event.loadDataset,
       Event.displayExample a b, Event.finetuneFound, Event.resultsFound] := by
    rw [h]
  have hd2 : (run_one_experiment envOk (run_one_experiment envOk fsEmpty).fs).trace =
      [Event.constructDatasetGen, Event.datasetFound, Event.loadDataset,
       Event.displayExample 1 3, Event.finetuneFound, Event.resultsFound] := by
    decide
  rw [hc] at hd2
  simp only [List.cons.injEq, and_true, true_and,
    Event.displayExample.injEq] at hd2
  obtain ⟨ha, hb⟩ := hd2
  subst ha
  subst hb
  exact h

/-- C5: a sweep item whose guarded first validation fails is not skipped: the
structured failure is printed and the same item continues — the raw,
unvalidated configuration object is passed to path resolution and persisted.
Since the persisted raw mapping re-validates with the same validator, the
reload-time validation then fails too (the claim's "unless" case), raising
out of the loop. -/
theorem first_validation_failure_continues {ρ τ α β γ : Type}
    [DecidableEq τ] (env : CLIEnv ρ τ α β γ) (disk : τ → FS α β γ)
    (r : RawConfig ρ) (e : String)
    (hv : env.validate r = Except.error e) :
    RunEvent.validationFailurePrinted e ∈ (processItem env disk r).trace ∧
    RunEvent.resolvePaths (Sum.inl r) ∈ (processItem env disk r).trace ∧
    (processItem env disk r).err = some (RunErr.validation e) := by
  simp [processItem, firstValidation, hv, persistedRaw]

/-- Witness for C5 on a configuration the validator rejects. -/
theorem first_validation_failure_continues_witness :
    RunEvent.validationFailurePrinted "bad" ∈
      (processItem cliEnvW diskW (RawConfig.mk none 0)).trace ∧
    RunEvent.resolvePaths (Sum.inl (RawConfig.mk none 0)) ∈
      (processItem cliEnvW diskW (RawConfig.mk none 0)).trace ∧
    (processItem cliEnvW diskW (RawConfig.mk none 0)).err =
      some (RunErr.validation "bad") :=
  first_validation_failure_continues cliEnvW diskW (RawConfig.mk none 0)
    "bad" rfl

/-- C6: for a sweep item that validates, the orchestrator is invoked with the
configuration obtained by re-validating the persisted copy (`t2`), not with
the in-memory object (`t`) that was used to compute the paths: whenever the
two differ, `t` is never handed to the orchestrator. -/
theorem orchestrator_gets_reloaded_config {ρ τ α β γ : Type}
    [DecidableEq τ] (env : CLIEnv ρ τ α β γ) (disk : τ → FS α β γ)
    (r : RawConfig ρ) (t t2 : τ)
    (h1 : env.validate r = Except.ok t)
    (h2 : env.validate (env.dump t) = Except.ok t2) :
    RunEvent.reloadOk t2 ∈ (processItem env disk r).trace ∧
    RunEvent.invokeOrchestrator t2 ∈ (processItem env disk r).trace ∧
    (t ≠ t2 →
      RunEvent.invokeOrchestrator t ∉ (processItem env disk r).trace) := by
  refine ⟨?_, ?_, ?_⟩
  · simp [processItem, firstValidation, h1, persistedRaw, h2]
  · simp [processItem, firstValidation, h1, persistedRaw, h2]
  · intro hne
    simp [processItem, firstValidation, h1, persistedRaw, h2, hne]

/-- Witness for C6: the in-memory configuration validates to `5`, the
reloaded persisted copy to `6`, and the orchestrator sees only `6`. -/
theorem orchestrator_gets_reloaded_config_witness :
    RunEvent.reloadOk 6 ∈
      (processItem cliEnvShift diskW (RawConfig.mk none 5)).trace ∧
    RunEvent.invokeOrchestrator 6 ∈
      (processItem cliEnvShift diskW (RawConfig.mk none 5)).trace ∧
    RunEvent.invokeOrchestrator 5 ∉
      (processItem cliEnvShift diskW (RawConfig.mk none 5)).trace :=
  ⟨(orchestrator_gets_reloaded_config cliEnvShift diskW (RawConfig.mk none 5)
      5 6 rfl rfl).1,
   (orchestrator_gets_reloaded_config cliEnvShift diskW (RawConfig.mk none 5)
      5 6 rfl rfl).2.1,
   (orchestrator_gets_reloaded_config cliEnvShift diskW (RawConfig.mk none 5)
      5 6 rfl rfl).2.2 (by decide)⟩

/-- Sequencing after a raised exception is the exception. -/
theorem andThen_some {ρ τ α β γ : Type} (out : SweepOut ρ τ α β γ)
    (k : (τ → FS α β γ) → SweepOut ρ τ α β γ) (e : RunErr)
    (h : out.err = some e) :
    out.andThen k = ⟨some e, out.disk, out.trace⟩ := by
  obtain ⟨oerr, odisk, otr⟩ := out
  simp only at h
  subst h
  rfl

/-- Sequencing after a normal completion runs the continuation. -/
theorem andThen_none {ρ τ α β γ : Type} (out : SweepOut ρ τ α β γ)
    (k : (τ → FS α β γ) → SweepOut ρ τ α β γ)
    (h : out.err = none) :
    out.andThen k = ⟨(k out.disk).err, (k out.disk).disk,
      out.trace ++ (k out.disk).trace⟩ := by
  obtain ⟨oerr, odisk, otr⟩ := out
  simp only at h
  subst h
  rfl

/-- The sweep loop over an appended list, when the prefix completes without
an exception: the suffix runs against the store the prefix left, and the
traces concatenate. -/
theorem runItems_append {ρ τ α β γ : Type} [DecidableEq τ]
    (env : CLIEnv ρ τ α β γ) :
    ∀ (pre : List (RawConfig ρ)) (disk : τ → FS α β γ)
      (l : List (RawConfig ρ)),
    (runItems env disk pre).err = none →
    (runItems env disk (pre ++ l)).err =
      (runItems env (runItems env disk pre).disk l).err ∧
    (runItems env disk (pre ++ l)).trace =
      (runItems env disk pre).trace ++
        (runItems env (runItems env disk pre).disk l).trace := by
  intro pre
  induction pre with
  | nil => intro disk l h; simp [runItems]
  | cons c cs ih =>
      intro disk l h
      simp only [List.cons_append, runItems] at h ⊢
      cases hpe : (processItem env disk c).err with
      | some e => rw [andThen_some _ _ _ hpe] at h; simp at h
      | none =>
          rw [andThen_none _ _ hpe] at h ⊢
          rw [andThen_none _ _ hpe]
          simp only [List.append_eq] at h ⊢
          obtain ⟨h1, h2⟩ := ih (processItem env disk c).disk l h
          exact ⟨h1, by rw [h2, List.append_assoc]⟩

/-- C10: the first validation of a sweep item is guarded, but the
re-validation of the reloaded persisted configuration is not: if the reloaded
configuration of item `c` fails validation (after a sweep prefix `pre` that
completed normally), the `ValidationError` escapes the `run` command — its
outcome is the error, and its trace ends with item `c`, independent of
however many sweep items were still pending. -/
theorem reload_failure_aborts_sweep {ρ τ α β γ : Type} [DecidableEq τ]
    (env : CLIEnv ρ τ α β γ) (disk : τ → FS α β γ)
    (pre : List (RawConfig ρ)) (c : RawConfig ρ)
    (rest : List (RawConfig ρ)) (e : String)
    (hpre : (runItems env disk pre).err = none)
    (hrl : env.validate (persistedRaw env (firstValidation env c).1) =
      Except.error e) :
    (runItems env disk (pre ++ c :: rest)).err =
      some (RunErr.validation e) ∧
    (runItems env disk (pre ++ c :: rest)).trace =
      (runItems env disk pre).trace ++
        (processItem env (runItems env disk pre).disk c).trace := by
  obtain ⟨h1, h2⟩ := runItems_append env pre disk (c :: rest) hpre
  rcases hf : firstValidation env c with ⟨cfg, tr0⟩
  rw [hf] at hrl
  simp only at hrl
  have hpc : ∀ d : τ → FS α β γ, processItem env d c =
      ⟨some (RunErr.validation e), d,
       tr0 ++ [RunEvent.resolvePaths cfg]⟩ := by
    intro d
    simp [processItem, hf, hrl]
  constructor
  · rw [h1]
    simp only [runItems]
    rw [hpc, andThen_some _ _ _ rfl]
  · rw [h2]
    simp only [runItems]
    rw [hpc, andThen_some _ _ _ rfl]

/-- Witness for C10: the first item's reloaded configuration fails
validation, so the pending second item never runs. -/
theorem reload_failure_aborts_sweep_witness :
    (runItems cliEnvBadDump diskW
        ([] ++ RawConfig.mk none 5 :: [RawConfig.mk none 7])).err =
      some (RunErr.validation "bad") ∧
    (runItems cliEnvBadDump diskW
        ([] ++ RawConfig.mk none 5 :: [RawConfig.mk none 7])).trace =
      (runItems cliEnvBadDump diskW []).trace ++
        (processItem cliEnvBadDump
          (runItems cliEnvBadDump diskW []).disk
          (RawConfig.mk none 5)).trace :=
  reload_failure_aborts_sweep cliEnvBadDump diskW []
    (RawConfig.mk none 5) [RawConfig.mk none 7] "bad" rfl rfl

/-- A sweep iteration that completed normally printed no validation failure:
if the first validation had failed, the raw mapping would have been persisted,
re-read and re-validated by the same validator, and the iteration would have
raised. -/
theorem processItem_ok_no_printed {ρ τ α β γ : Type} [DecidableEq τ]
    (env : CLIEnv ρ τ α β γ) (disk : τ → FS α β γ) (r : RawConfig ρ)
    (e : String) (h : (processItem env disk r).err = none) :
    RunEvent.validationFailurePrinted e ∉ (processItem env disk r).trace := by
  cases hv : env.validate r with
  | error e2 =>
      exfalso
      have herr : (processItem env disk r).err =
          some (RunErr.validation e2) := by
        simp [processItem, firstValidation, hv, persistedRaw]
      rw [h] at herr
      exact Option.noConfusion herr
  | ok t =>
      cases hrl : env.validate (env.dump t) with
      | error e2 => simp [processItem, firstValidation, hv, persistedRaw, hrl]
      | ok t2 => simp [processItem, firstValidation, hv, persistedRaw, hrl]

/-- If any iteration of the sweep loop printed a validation failure, the loop
raised: the printed first-pass failure forces the unguarded reload-time
validation of the persisted raw mapping to fail as well. -/
theorem printed_implies_err {ρ τ α β γ : Type} [DecidableEq τ]
    (env : CLIEnv ρ τ α β γ) (e : String) :
    ∀ (items : List (RawConfig ρ)) (disk : τ → FS α β γ),
    RunEvent.validationFailurePrinted e ∈ (runItems env disk items).trace →
    (runItems env disk items).err ≠ none := by
  intro items
  induction items with
  | nil => intro disk h; simp [runItems] at h
  | cons c cs ih =>
      intro disk h
      simp only [runItems] at h ⊢
      cases hpe : (processItem env disk c).err with
      | some er =>
          rw [andThen_some _ _ _ hpe]
          simp
      | none =>
          rw [andThen_none _ _ hpe] at h ⊢
          simp only at h ⊢
          rw [List.mem_append] at h
          rcases h with h | h
          · exact absurd h (processItem_ok_no_printed env disk c e hpe)
          · exact ih _ h

/-- Counterexample to C8 as stated: an invocation of the `run` command in
which no configuration validation ever fails (the trace holds no printed
validation failure and the escaping exception is a stage error) and which
nevertheless exits non-zero, because the fine-tuning collaborator raised. -/
theorem run_exit_nonzero_without_validation_failure :
    (runCommand cliEnvStageFail diskW (RawConfig.mk none 5)).err =
      some (RunErr.stage Err.finetuneError) ∧
    exitCode (runCommand cliEnvStageFail diskW (RawConfig.mk none 5)) = 1 ∧
    (runCommand cliEnvStageFail diskW (RawConfig.mk none 5)).trace =
      [RunEvent.resolvePaths (Sum.inr 5), RunEvent.reloadOk 5,
       RunEvent.invokeOrchestrator 5,
       RunEvent.stage Event.constructDatasetGen,
       RunEvent.stage Event.generateDataset,
       RunEvent.stage Event.saveDataset,
       RunEvent.stage (Event.displayExample 1 3),
       RunEvent.stage Event.constructFinetuner] := by
  refine ⟨rfl, rfl, rfl⟩

/-- C8 amended: the `run` command exits non-zero whenever a configuration
validation failure occurs during the run (even the caught first-pass failure
leads to an uncaught reload-time failure of the same raw mapping), and exits
zero when the sweep loop completes without an exception; but validation
success alone does not guarantee a zero exit — a stage-execution failure also
exits non-zero. -/
theorem run_exit_status_amended {ρ τ α β γ : Type} [DecidableEq τ]
    (env : CLIEnv ρ τ α β γ) (disk : τ → FS α β γ) (raw : RawConfig ρ)
    (e : String) :
    (RunEvent.validationFailurePrinted e ∈ (runCommand env disk raw).trace →
      exitCode (runCommand env disk raw) = 1) ∧
    ((runCommand env disk raw).err = none →
      exitCode (runCommand env disk raw) = 0) := by
  constructor
  · intro h
    simp only [runCommand] at h ⊢
    have hne := printed_implies_err env e
      (expandConfigs env.generate_permutations raw) disk h
    cases herr : (runItems env disk
        (expandConfigs env.generate_permutations raw)).err with
    | none => exact absurd herr hne
    | some er => simp [exitCode, herr]
  · intro h
    simp [exitCode, h]

/-- Witness for the amended C8: a run whose only item fails validation exits
non-zero. -/
theorem run_exit_status_amended_witness :
    exitCode (runCommand cliEnvW diskW (RawConfig.mk none 0)) = 1 :=
  (run_exit_status_amended cliEnvW diskW (RawConfig.mk none 0) "bad").1
    (by decide)

end LLMTune
